import Mathlib

/-!
Verification of the scoring and hint-state engine of the af-test-viewer
application (a Next.js exam viewer). The definitions below are a shallow
embedding of the client page component (the variant with test-taking state)
and of the generation API route.

Modelling conventions:
* JavaScript objects used as string-keyed records are modelled as
  association lists; the spread update `{...prev, [key]: v}` replaces the
  binding in place when the key is present and appends it otherwise.
* JavaScript numbers are modelled as `Int` (the data contains only integral
  answer indices); `Number(x)` applied to a non-numeric value yields `NaN`,
  modelled as `none : Option Int`.  The string form of `Number` is modelled
  for whitespace-padded optionally signed decimal integer literals, the only
  numeric shapes the answer data takes.
* Absent record fields are modelled by the stated default field values,
  which is observationally equivalent because every read of a possibly
  absent field in the source is guarded (`?.`, `|| 0`, `|| []`, `|| false`).
* Strings are compared and transformed over their character lists.
-/

/-- One selectable choice, `interface Option { text: string }` of the source
(renamed because `Option` is taken in Lean). -/
structure AnswerOption where
  text : String := ""
deriving DecidableEq

/-- A primitive JSON value that can appear as (or inside) the `answer` field:
a number, a string, or `null`. -/
inductive AnswerPrim where
  | num (n : Int)
  | str (s : String)
  | null
deriving DecidableEq

/-- The `answer` field of a problem: `string | string[] | number` in the
source annotation; the array case holds primitive elements and `null` can
appear in the raw CMS JSON. -/
inductive AnswerSpec where
  | prim (p : AnswerPrim)
  | arr (elems : List AnswerPrim)
deriving DecidableEq

/-- `interface Problem` of the source. -/
structure Problem where
  text : String := ""
  passage_text : Option String := none
  options : List AnswerOption := []
  solution : Option String := none
  answer : Option AnswerSpec := none
deriving DecidableEq

/-- `interface QuestionState` of the source; defaults model the absent
fields of a freshly spread empty record. -/
structure QuestionState where
  selectedAnswer : Option String := none
  submitted : Bool := false
  hintsUsed : Nat := 0
  score : Int := 0
  isCorrect : Option Bool := none
deriving DecidableEq

/-- `interface SolutionState` of the source. -/
structure SolutionState where
  hintLoading : Bool := false
  solutionLoading : Bool := false
  aiHints : List String := []
  aiSolution : Option String := none
  hintError : Option String := none
  solutionError : Option String := none
  showPanel : Bool := false
deriving DecidableEq

/-- The mutable page state of the component: the `solutions` record, the
`questionStates` record and the `testSubmitted` flag. -/
structure PageState where
  solutions : List (String × SolutionState) := []
  questionStates : List (String × QuestionState) := []
  testSubmitted : Bool := false
deriving DecidableEq

/-- Reading `record[key]` on a JavaScript object modelled as an association
list (keys are unique, so first match is the match). -/
def lookupJ {α : Type} : List (String × α) → String → Option α
  | [], _ => none
  | kv :: rest, key => if kv.1 == key then some kv.2 else lookupJ rest key

/-- The update `{...prev, [key]: v}`: replaces the binding in place when the
key exists, otherwise appends it (JavaScript object key order). -/
def setJ {α : Type} : List (String × α) → String → α → List (String × α)
  | [], key, v => [(key, v)]
  | kv :: rest, key, v =>
    if kv.1 == key then (key, v) :: rest else kv :: setJ rest key v

theorem lookupJ_setJ_self {α : Type} (m : List (String × α)) (k : String) (v : α) :
    lookupJ (setJ m k v) k = some v := by
  induction m with
  | nil => simp [setJ, lookupJ]
  | cons kv rest ih =>
    by_cases h : kv.1 == k
    · simp [setJ, lookupJ, h]
    · simp only [setJ, h, if_neg]
      simp [lookupJ, h, ih]

/-- JavaScript truthiness of a possibly absent string (the empty string and
`undefined` are falsy). -/
def jsTruthy : Option String → Bool
  | none => false
  | some s => !(s == "")

/-- Leading/trailing whitespace removal on a character list (the behaviour
of the implicit trim inside JavaScript `Number(string)` and of `.trim()`
restricted to ASCII whitespace). -/
def trimCharList (cs : List Char) : List Char :=
  ((cs.dropWhile Char.isWhitespace).reverse.dropWhile Char.isWhitespace).reverse

/-- `.trim()` on a string. -/
def jsTrim (s : String) : String := ⟨trimCharList s.data⟩

/-- `.toUpperCase()` on a string (ASCII range, which covers answer letters). -/
def jsToUpper (s : String) : String := ⟨s.data.map Char.toUpper⟩

/-- The numeric value of a digit list. -/
def natOfDigits (cs : List Char) : Nat :=
  cs.foldl (fun a c => a * 10 + (c.toNat - 48)) 0

/-- JavaScript `Number(s)` for a string, restricted to whitespace-padded
optionally signed decimal integer literals: surrounding whitespace is
dropped, the empty remainder converts to `0`, a signed digit string to its
value, and anything else to `NaN` (`none`). -/
def jsStringToNumber (s : String) : Option Int :=
  match trimCharList s.data with
  | [] => some 0
  | '-' :: ds => if ds ≠ [] ∧ ds.all Char.isDigit then some (-(natOfDigits ds : Int)) else none
  | '+' :: ds => if ds ≠ [] ∧ ds.all Char.isDigit then some ((natOfDigits ds : Int)) else none
  | ds => if ds.all Char.isDigit then some ((natOfDigits ds : Int)) else none

/-- JavaScript `Number(x)` on the raw answer value (`none` is `undefined`):
`Number(undefined) = NaN`, `Number(null) = 0`, numbers are themselves and
strings go through the string conversion. `none` in the result is `NaN`. -/
def jsToNumber : Option AnswerPrim → Option Int
  | none => none
  | some (.num n) => some n
  | some .null => some 0
  | some (.str s) => jsStringToNumber s

/-- `typeof rawAnswer === 'number'`. -/
def isNumberType : Option AnswerPrim → Bool
  | some (.num _) => true
  | _ => false

/-- `String(rawAnswer || '')`: falsy values (`undefined`, `null`, the empty
string, zero) become the empty string, anything else its string form. -/
def jsStringOrEmpty : Option AnswerPrim → String
  | none => ""
  | some .null => ""
  | some (.num n) => if n = 0 then "" else toString n
  | some (.str s) => s

/-- `String.fromCharCode(n)`: the code is taken modulo 2^16 as JavaScript
does. -/
def jsFromCharCode (n : Int) : String :=
  String.singleton (Char.ofNat (n % 65536).toNat)

/-- `Array.isArray(problem.answer) ? problem.answer[0] : problem.answer`
(lines 146-147 of the page component); `none` is `undefined`. -/
def rawAnswerOf (p : Problem) : Option AnswerPrim :=
  match p.answer with
  | none => none
  | some (.prim pr) => some pr
  | some (.arr elems) => elems.head?

/-- `getCorrectAnswer` (lines 146-154 of the page component): if the raw
answer is a number or coerces to one, the letter is char code 64 plus the
number (1 is A); otherwise the raw value defaulted to the empty string,
upper-cased then trimmed. -/
def getCorrectAnswer (p : Problem) : String :=
  let rawAnswer := rawAnswerOf p
  if isNumberType rawAnswer || (jsToNumber rawAnswer).isSome then
    jsFromCharCode (64 + (jsToNumber rawAnswer).getD 0)
  else
    jsTrim (jsToUpper (jsStringOrEmpty rawAnswer))

/-- `selectAnswer` (lines 130-142 of the page component): ignored when the
test or this question is submitted, otherwise records the selection with
`submitted = false` and `score = 0`, keeping `hintsUsed` and `isCorrect`. -/
def selectAnswer (ps : PageState) (problemKey answer : String) : PageState :=
  if ps.testSubmitted || ((lookupJ ps.questionStates problemKey).map (·.submitted)).getD false
  then ps
  else
    let old := (lookupJ ps.questionStates problemKey).getD {}
    { ps with questionStates :=
        (setJ ps.questionStates problemKey
          { old with selectedAnswer := some answer, submitted := false,
                     hintsUsed := old.hintsUsed, score := 0 }) }

/-- `submitQuestion` (lines 157-179 of the page component): ignored unless a
truthy answer is selected and the question is unsubmitted; otherwise marks
the question submitted with its correctness and score (`4` minus one per
hint used, floored at `0`, and `0` when incorrect). -/
def submitQuestion (ps : PageState) (problemKey : String) (problem : Problem) : PageState :=
  match lookupJ ps.questionStates problemKey with
  | none => ps
  | some state =>
    if !(jsTruthy state.selectedAnswer) || state.submitted then ps
    else
      let correctAnswer := getCorrectAnswer problem
      let isCorrect := state.selectedAnswer == some correctAnswer
      let score : Int := if isCorrect then max 0 (4 - (state.hintsUsed : Int)) else 0
      { ps with questionStates :=
          (setJ ps.questionStates problemKey
            { state with submitted := true, isCorrect := some isCorrect, score := score }) }

/-- `submitTest` (lines 182-184 of the page component). -/
def submitTest (ps : PageState) : PageState :=
  { ps with testSubmitted := true }

/-- `calculateTotalScore` (lines 187-191): a fold over the question states
adding the score of each submitted question. -/
def calculateTotalScore (ps : PageState) : Int :=
  ps.questionStates.foldl
    (fun total kv => total + (if kv.2.submitted then kv.2.score else 0)) 0

/-- `countAnsweredQuestions` (lines 194-196). -/
def countAnsweredQuestions (ps : PageState) : Nat :=
  (ps.questionStates.filter (fun kv => kv.2.submitted)).length

/-- The synchronous start of `generateHint` (lines 198-225 of the page
component): marks the hint as loading, shows the panel, and issues the
network request.  The boolean is the issued-request indicator; the source
reaches the `fetch` unconditionally, so it is always `true`. -/
def generateHintStart (ps : PageState) (problemKey : String) : Bool × PageState :=
  let old := (lookupJ ps.solutions problemKey).getD {}
  (true,
   { ps with solutions :=
       (setJ ps.solutions problemKey
         { old with hintLoading := true, solutionLoading := old.solutionLoading,
                    aiHints := old.aiHints, showPanel := true }) })

/-- The completion handler of `generateHint` (lines 227-262): on success the
returned text is appended to the hints and the question's `hintsUsed` is
incremented; on failure only the loading flag is cleared and the error
recorded, the question states untouched. -/
def generateHintResolve (ps : PageState) (problemKey : String)
    (outcome : Except String String) : PageState :=
  match outcome with
  | .ok text =>
    let oldS := (lookupJ ps.solutions problemKey).getD {}
    let ps1 := { ps with solutions :=
        (setJ ps.solutions problemKey
          { oldS with hintLoading := false, aiHints := oldS.aiHints ++ [text] }) }
    let oldQ := (lookupJ ps1.questionStates problemKey).getD {}
    { ps1 with questionStates :=
        (setJ ps1.questionStates problemKey
          { oldQ with hintsUsed := oldQ.hintsUsed + 1, submitted := oldQ.submitted,
                      score := oldQ.score }) }
  | .error msg =>
    let oldS := (lookupJ ps.solutions problemKey).getD {}
    { ps with solutions :=
        (setJ ps.solutions problemKey
          { oldS with hintLoading := false, hintError := some msg }) }

/-- The hint button (lines 631-641 of the page component): it is disabled
while `hintLoading` holds for the key, so a click while pending performs
nothing and issues no request; otherwise it invokes `generateHint`. -/
def hintButtonClick (ps : PageState) (problemKey : String) : Bool × PageState :=
  if ((lookupJ ps.solutions problemKey).map (·.hintLoading)).getD false then (false, ps)
  else generateHintStart ps problemKey

/-- The synchronous start of `generateSolution` (lines 265-288). -/
def generateSolutionStart (ps : PageState) (problemKey : String) : Bool × PageState :=
  let old := (lookupJ ps.solutions problemKey).getD {}
  (true,
   { ps with solutions :=
       (setJ ps.solutions problemKey
         { old with solutionLoading := true, hintLoading := old.hintLoading,
                    aiHints := old.aiHints, showPanel := true }) })

/-- The completion handler of `generateSolution` (lines 290-314): on success
the returned text replaces the stored solution; on failure only the loading
flag is cleared and the error recorded. -/
def generateSolutionResolve (ps : PageState) (problemKey : String)
    (outcome : Except String String) : PageState :=
  match outcome with
  | .ok text =>
    let oldS := (lookupJ ps.solutions problemKey).getD {}
    { ps with solutions :=
        (setJ ps.solutions problemKey
          { oldS with solutionLoading := false, aiSolution := some text }) }
  | .error msg =>
    let oldS := (lookupJ ps.solutions problemKey).getD {}
    { ps with solutions :=
        (setJ ps.solutions problemKey
          { oldS with solutionLoading := false, solutionError := some msg }) }

example : getCorrectAnswer { answer := some (.prim (.num 1)) } = "A" := by decide
example : getCorrectAnswer { answer := some (.prim (.str " 2 ")) } = "B" := by decide
example : getCorrectAnswer { answer := some (.prim (.str "")) } = "@" := by decide
example : getCorrectAnswer { answer := some (.prim .null) } = "@" := by decide
example : getCorrectAnswer { answer := none } = "" := by decide
example : getCorrectAnswer { answer := some (.arr [.str "1"]) } = "A" := by decide
example : getCorrectAnswer { answer := some (.prim (.str " c "))} = "C" := by decide

/-- Claim C1: for every question key and problem, submitQuestion is a no-op
when no option is selected for that key or when that question is already
submitted; otherwise it sets isCorrect to whether the selection equals the
correct letter, sets the score to max(0, 4 - hintsUsed) when correct (never
negative) and 0 when incorrect, and sets submitted to true. -/
theorem submitQuestion_spec (ps : PageState) (key : String) (p : Problem) :
    (((lookupJ ps.questionStates key).map
        (fun st => jsTruthy st.selectedAnswer)).getD false = false →
      submitQuestion ps key p = ps)
  ∧ (((lookupJ ps.questionStates key).map (·.submitted)).getD false = true →
      submitQuestion ps key p = ps)
  ∧ (∀ st, lookupJ ps.questionStates key = some st →
      jsTruthy st.selectedAnswer = true → st.submitted = false →
      lookupJ (submitQuestion ps key p).questionStates key = some
        { st with submitted := true,
                  isCorrect := some (st.selectedAnswer == some (getCorrectAnswer p)),
                  score := if st.selectedAnswer == some (getCorrectAnswer p)
                           then max 0 (4 - (st.hintsUsed : Int)) else 0 }
      ∧ (0 : Int) ≤ (if st.selectedAnswer == some (getCorrectAnswer p)
                     then max 0 (4 - (st.hintsUsed : Int)) else 0)) := by
  refine ⟨?_, ?_, ?_⟩
  · intro h
    cases hl : lookupJ ps.questionStates key with
    | none => simp [submitQuestion, hl]
    | some st =>
      rw [hl] at h
      simp at h
      simp [submitQuestion, hl, h]
  · intro h
    cases hl : lookupJ ps.questionStates key with
    | none => rw [hl] at h; simp at h
    | some st =>
      rw [hl] at h
      simp at h
      simp [submitQuestion, hl, h]
  · intro st hl htr hsub
    refine ⟨?_, ?_⟩
    · simp [submitQuestion, hl, htr, hsub, lookupJ_setJ_self]
    · split
      · exact le_max_left 0 _
      · exact le_refl 0

/-- A problem whose answer is the string "2" (correct letter B). -/
def exProblemB : Problem := { answer := some (.prim (.str "2")) }

/-- A page with one question that has B selected and one hint used. -/
def exPageC1 : PageState :=
  { questionStates := [("0-0",
      { selectedAnswer := some "B", submitted := false, hintsUsed := 1,
        score := 0, isCorrect := none })] }

theorem submitQuestion_spec_witness :
    lookupJ (submitQuestion exPageC1 "0-0" exProblemB).questionStates "0-0" = some
      { selectedAnswer := some "B", submitted := true, hintsUsed := 1,
        score := 3, isCorrect := some true } := by
  have h := ((submitQuestion_spec exPageC1 "0-0" exProblemB).2.2
      { selectedAnswer := some "B", submitted := false, hintsUsed := 1,
        score := 0, isCorrect := none }
      (by decide) (by decide) (by decide)).1
  exact h.trans (by decide)

/-- Claim C5: selectAnswer is a complete no-op once the question or the test
is submitted; otherwise it overwrites the selection with the given letter
and resets submitted to false and score to 0. -/
theorem selectAnswer_spec (ps : PageState) (key answer : String) :
    (ps.testSubmitted = true → selectAnswer ps key answer = ps)
  ∧ (∀ st, lookupJ ps.questionStates key = some st → st.submitted = true →
      selectAnswer ps key answer = ps)
  ∧ (ps.testSubmitted = false →
     ((lookupJ ps.questionStates key).map (·.submitted)).getD false = false →
      lookupJ (selectAnswer ps key answer).questionStates key = some
        { (lookupJ ps.questionStates key).getD {} with
            selectedAnswer := some answer, submitted := false, score := 0 }
      ∧ (selectAnswer ps key answer).testSubmitted = ps.testSubmitted
      ∧ (selectAnswer ps key answer).solutions = ps.solutions) := by
  refine ⟨?_, ?_, ?_⟩
  · intro h; simp [selectAnswer, h]
  · intro st hl hsub; simp [selectAnswer, hl, hsub]
  · intro ht hsub
    refine ⟨?_, ?_, ?_⟩ <;> simp [selectAnswer, ht, hsub, lookupJ_setJ_self]

/-- A page whose test is already submitted. -/
def exPageC5sub : PageState := { testSubmitted := true }

/-- A fresh page with no per-question state. -/
def exPageC5 : PageState := {}

theorem selectAnswer_spec_witness :
    selectAnswer exPageC5sub "0-0" "A" = exPageC5sub
  ∧ lookupJ (selectAnswer exPageC5 "0-0" "A").questionStates "0-0" = some
      { selectedAnswer := some "A", submitted := false, hintsUsed := 0,
        score := 0, isCorrect := none } := by
  constructor
  · exact (selectAnswer_spec exPageC5sub "0-0" "A").1 (by decide)
  · have h := ((selectAnswer_spec exPageC5 "0-0" "A").2.2 (by decide) (by decide)).1
    exact h.trans (by decide)

/-- Claim C3: a failed hint request leaves the question states (hence the
hintsUsed counter) and the hint sequence unchanged, clears hintLoading and
records only the error message. -/
theorem hintFailure_spec (ps : PageState) (key msg : String) :
    (generateHintResolve ps key (.error msg)).questionStates = ps.questionStates
  ∧ ((lookupJ (generateHintResolve ps key (.error msg)).questionStates key).map
        (·.hintsUsed))
      = ((lookupJ ps.questionStates key).map (·.hintsUsed))
  ∧ lookupJ (generateHintResolve ps key (.error msg)).solutions key = some
      { (lookupJ ps.solutions key).getD {} with
          hintLoading := false, hintError := some msg }
  ∧ ((lookupJ (generateHintResolve ps key (.error msg)).solutions key).map
        (·.aiHints)).getD []
      = ((lookupJ ps.solutions key).map (·.aiHints)).getD []
  ∧ (generateHintResolve ps key (.error msg)).testSubmitted = ps.testSubmitted := by
  refine ⟨rfl, rfl, ?_, ?_, rfl⟩
  · simp [generateHintResolve, lookupJ_setJ_self]
  · cases hl : lookupJ ps.solutions key <;>
      simp [generateHintResolve, lookupJ_setJ_self, hl]

/-- Claim C4: a successful hint request appends the returned text at the end
of the hint sequence (existing hints untouched, newest last) and increments
that question's hintsUsed counter by exactly one. -/
theorem hintSuccess_spec (ps : PageState) (key text : String) :
    lookupJ (generateHintResolve ps key (.ok text)).solutions key = some
      { (lookupJ ps.solutions key).getD {} with
          hintLoading := false,
          aiHints := ((lookupJ ps.solutions key).getD {}).aiHints ++ [text] }
  ∧ lookupJ (generateHintResolve ps key (.ok text)).questionStates key = some
      { (lookupJ ps.questionStates key).getD {} with
          hintsUsed := ((lookupJ ps.questionStates key).getD {}).hintsUsed + 1 }
  ∧ (generateHintResolve ps key (.ok text)).testSubmitted = ps.testSubmitted := by
  refine ⟨?_, ?_, rfl⟩ <;> simp [generateHintResolve, lookupJ_setJ_self]

/-- Claim C7: a successful solution request replaces any previous solution
value; a failed one records the error, clears the loading flag and leaves
any previously fetched solution intact; neither touches question states. -/
theorem solutionResolve_spec (ps : PageState) (key text msg : String) :
    lookupJ (generateSolutionResolve ps key (.ok text)).solutions key = some
      { (lookupJ ps.solutions key).getD {} with
          solutionLoading := false, aiSolution := some text }
  ∧ lookupJ (generateSolutionResolve ps key (.error msg)).solutions key = some
      { (lookupJ ps.solutions key).getD {} with
          solutionLoading := false, solutionError := some msg }
  ∧ ((lookupJ (generateSolutionResolve ps key (.error msg)).solutions key).map
        (·.aiSolution))
      = some ((lookupJ ps.solutions key).getD {}).aiSolution
  ∧ (generateSolutionResolve ps key (.ok text)).questionStates = ps.questionStates
  ∧ (generateSolutionResolve ps key (.error msg)).questionStates = ps.questionStates := by
  refine ⟨?_, ?_, ?_, rfl, rfl⟩ <;> simp [generateSolutionResolve, lookupJ_setJ_self]

/-- Claim C10: submitTest only raises the test-level submitted flag: every
per-question state, the solutions map and the derived totals are unchanged,
and calling it again is a no-op. -/
theorem submitTest_spec (ps : PageState) :
    (submitTest ps).testSubmitted = true
  ∧ (submitTest ps).questionStates = ps.questionStates
  ∧ (submitTest ps).solutions = ps.solutions
  ∧ submitTest (submitTest ps) = submitTest ps
  ∧ calculateTotalScore (submitTest ps) = calculateTotalScore ps
  ∧ countAnsweredQuestions (submitTest ps) = countAnsweredQuestions ps
  ∧ (∀ key, lookupJ (submitTest ps).questionStates key = lookupJ ps.questionStates key) :=
  ⟨rfl, rfl, rfl, rfl, rfl, rfl, fun _ => rfl⟩

theorem foldl_score_eq (l : List (String × QuestionState)) (a : Int) :
    l.foldl (fun total kv => total + (if kv.2.submitted then kv.2.score else 0)) a
      = a + ((l.filter (fun kv => kv.2.submitted)).map (fun kv => kv.2.score)).sum := by
  induction l generalizing a with
  | nil => simp
  | cons kv rest ih =>
    by_cases h : kv.2.submitted
    · simp [h, ih, List.filter_cons]
      ring
    · simp [h, ih, List.filter_cons]

/-- A hand-built page with three questions: one submitted correct with one
hint (3 points), one submitted incorrect (0 points), one untouched. -/
def exPageC8 : PageState :=
  { questionStates := [
      ("0-0", { selectedAnswer := some "A", submitted := true, hintsUsed := 1,
                score := 3, isCorrect := some true }),
      ("0-1", { selectedAnswer := some "B", submitted := true, hintsUsed := 0,
                score := 0, isCorrect := some false }),
      ("0-2", {})] }

/-- Claim C8: the total score is the sum of the scores of exactly the
submitted question states and the answered count is their number, both pure
functions of the current state; on the hand-built three-question state the
values are 3 and 2. -/
theorem aggregate_spec :
    (∀ ps : PageState,
        calculateTotalScore ps
          = ((ps.questionStates.filter (fun kv => kv.2.submitted)).map
              (fun kv => kv.2.score)).sum
      ∧ countAnsweredQuestions ps
          = (ps.questionStates.filter (fun kv => kv.2.submitted)).length)
  ∧ calculateTotalScore exPageC8 = 3
  ∧ countAnsweredQuestions exPageC8 = 2 := by
  refine ⟨fun ps => ⟨?_, rfl⟩, by decide, by decide⟩
  simpa [calculateTotalScore] using foldl_score_eq ps.questionStates 0

/-- A page with a pending hint request on one question. -/
def exPageC6 : PageState :=
  { solutions := [("0-0", { hintLoading := true, showPanel := true })] }

/-- Claim C6 counterexample: the generateHint function itself has no
pending-flag guard; invoked directly while hintLoading is already true for
the key, it still issues a (second) network request. -/
theorem hintOverlap_counterexample :
    ((lookupJ exPageC6.solutions "0-0").map (·.hintLoading)).getD false = true
  ∧ (generateHintStart exPageC6 "0-0").1 = true := by decide

/-- Claim C6 (amended): the hint button, the only invocation path of
generateHint, is disabled while hintLoading is true for that key, so a
click while a hint request is pending issues no request and leaves the
whole state unchanged. -/
theorem hintButton_noOverlap (ps : PageState) (key : String)
    (h : ((lookupJ ps.solutions key).map (·.hintLoading)).getD false = true) :
    hintButtonClick ps key = (false, ps) := by
  simp [hintButtonClick, h]

/-- A pending page used by the claim C6 witness. -/
def exPageC6b : PageState :=
  { solutions := [("1-0", { hintLoading := true, showPanel := true })] }

theorem hintButton_noOverlap_witness :
    hintButtonClick exPageC6b "1-0" = (false, exPageC6b) :=
  hintButton_noOverlap exPageC6b "1-0" (by decide)

/-- Claim C2 counterexample: an empty-string answer and a null answer
coerce to the number 0 under JavaScript Number, so getCorrectAnswer yields
the at-sign (char code 64), not the empty string the claim states. -/
theorem getCorrectAnswer_claim_counterexample :
    getCorrectAnswer { answer := some (.prim (.str "")) } = "@"
  ∧ getCorrectAnswer { answer := some (.prim (.str "")) } ≠ ""
  ∧ getCorrectAnswer { answer := some (.prim .null) } = "@"
  ∧ getCorrectAnswer { answer := some (.prim .null) } ≠ "" := by decide

/-- Claim C2 (amended): getCorrectAnswer is total; numeric strings with
surrounding whitespace map their value n to char code 64 + n, non-numeric
strings are upper-cased then trimmed, a one-element array is treated as its
first element; 1, "2", "C", ["1"] give A, B, C, A; an absent answer and an
empty array give the empty string, while null and the empty string coerce
to 0 and give the at-sign. -/
theorem getCorrectAnswer_spec :
    (∀ s n, jsStringToNumber s = some n →
        getCorrectAnswer { answer := some (.prim (.str s)) } = jsFromCharCode (64 + n))
  ∧ (∀ s, jsStringToNumber s = none →
        getCorrectAnswer { answer := some (.prim (.str s)) } = jsTrim (jsToUpper s))
  ∧ (∀ p, getCorrectAnswer { answer := some (.arr [p]) }
        = getCorrectAnswer { answer := some (.prim p) })
  ∧ getCorrectAnswer { answer := some (.prim (.num 1)) } = "A"
  ∧ getCorrectAnswer { answer := some (.prim (.str "2")) } = "B"
  ∧ getCorrectAnswer { answer := some (.prim (.str "C")) } = "C"
  ∧ getCorrectAnswer { answer := some (.arr [.str "1"]) } = "A"
  ∧ getCorrectAnswer { answer := none } = ""
  ∧ getCorrectAnswer { answer := some (.arr []) } = ""
  ∧ getCorrectAnswer { answer := some (.prim .null) } = "@"
  ∧ getCorrectAnswer { answer := some (.prim (.str "")) } = "@" := by
  refine ⟨?_, ?_, ?_, by decide, by decide, by decide, by decide, by decide,
          by decide, by decide, by decide⟩
  · intro s n h
    simp [getCorrectAnswer, rawAnswerOf, isNumberType, jsToNumber, h]
  · intro s h
    simp [getCorrectAnswer, rawAnswerOf, isNumberType, jsToNumber, h, jsStringOrEmpty]
  · intro p
    cases p <;> rfl

theorem getCorrectAnswer_spec_witness :
    getCorrectAnswer { answer := some (.prim (.str " 2 ")) } = "B"
  ∧ getCorrectAnswer { answer := some (.prim (.str " c  ")) } = "C" := by
  constructor
  · exact (getCorrectAnswer_spec.1 " 2 " 2 (by decide)).trans (by decide)
  · exact (getCorrectAnswer_spec.2.1 " c  " (by decide)).trans (by decide)

/-- The left curly brace character of the placeholder tokens. -/
def lcb : Char := Char.ofNat 123

/-- The right curly brace character of the placeholder tokens. -/
def rcb : Char := Char.ofNat 125

/-- The literal placeholder token for the question content. -/
def questionContentToken : List Char :=
  [lcb, lcb] ++ "QUESTION_CONTENT".data ++ [rcb, rcb]

/-- The literal placeholder token for the hint instructions. -/
def hintInstructionsToken : List Char :=
  [lcb, lcb] ++ "HINT_INSTRUCTIONS".data ++ [rcb, rcb]

/-- The legacy placeholder token for the hint instructions. -/
def previousHintsToken : List Char :=
  [lcb, lcb] ++ "PREVIOUS_HINTS".data ++ [rcb, rcb]

/-- The dollar character that starts a replacement pattern in JavaScript
string substitution. -/
def dollarChar : Char := '$'

/-- The backquote character of the JavaScript replacement pattern that
inserts the portion of the subject preceding the match. -/
def backquoteChar : Char := Char.ofNat 96

/-- The quote character of the JavaScript replacement pattern that inserts
the portion of the subject following the match. -/
def quoteChar : Char := Char.ofNat 39

/-- The character scan of ECMAScript GetSubstitution restricted to a string
search value (no capture groups); `pending` records that the previous
character was a dollar not yet resolved.  A dollar followed by a dollar
yields one dollar, followed by an ampersand yields the matched pattern,
followed by a backquote yields the part of the subject before the match,
followed by a quote yields the part after it; any other dollar (ending the
text, or starting a digit or angle sequence, which have no captures to
refer to) stays literal. -/
def getSubstitutionGo (matched before after : List Char) (pending : Bool) :
    List Char → List Char
  | [] => if pending then [dollarChar] else []
  | c :: rest =>
    if pending then
      if c = dollarChar then
        dollarChar :: getSubstitutionGo matched before after false rest
      else if c = '&' then
        matched ++ getSubstitutionGo matched before after false rest
      else if c = backquoteChar then
        before ++ getSubstitutionGo matched before after false rest
      else if c = quoteChar then
        after ++ getSubstitutionGo matched before after false rest
      else
        dollarChar :: c :: getSubstitutionGo matched before after false rest
    else
      if c = dollarChar then getSubstitutionGo matched before after true rest
      else c :: getSubstitutionGo matched before after false rest

/-- ECMAScript GetSubstitution on the replacement text, for a string search
value. -/
def getSubstitution (matched before after rep : List Char) : List Char :=
  getSubstitutionGo matched before after false rep

/-- The scan of JavaScript `s.replace(pat, rep)` with a string pattern: the
already scanned prefix is carried as `before`; at the first occurrence the
GetSubstitution expansion of the replacement is spliced in and the rest of
the subject kept. -/
def replaceFirstGo (pat rep : List Char) : List Char → List Char → List Char
  | before, [] => before
  | before, c :: rest =>
    if pat.isPrefixOf (c :: rest) then
      before ++ getSubstitution pat before ((c :: rest).drop pat.length) rep
        ++ (c :: rest).drop pat.length
    else replaceFirstGo pat rep (before ++ [c]) rest

/-- JavaScript `s.replace(pat, rep)` with a string pattern replaces only the
first occurrence, applying GetSubstitution to the replacement text; strings
are viewed as character lists. -/
def replaceFirstL (pat rep s : List Char) : List Char :=
  replaceFirstGo pat rep [] s

/-- The final prompt assembly of the generation route (lines 720-723 of the
API route): the chosen template with QUESTION_CONTENT replaced first, then
HINT_INSTRUCTIONS, then the legacy PREVIOUS_HINTS, the last two by the same
hint-instructions text. -/
def buildFinalPrompt (template questionContent hintInstructions : List Char) : List Char :=
  replaceFirstL previousHintsToken hintInstructions
    (replaceFirstL hintInstructionsToken hintInstructions
      (replaceFirstL questionContentToken questionContent template))

/-- Whether the pattern occurs somewhere in the list. -/
def occursIn (pat : List Char) : List Char → Bool
  | [] => pat.isEmpty
  | c :: rest => pat.isPrefixOf (c :: rest) || occursIn pat rest

/-- No occurrence of the pattern starts strictly before position `a.length`
in `a ++ (pat ++ b)`, so the occurrence after `a` is the first one. -/
abbrev noEarlyMatch (pat a b : List Char) : Prop :=
  ∀ i, i < a.length → pat.isPrefixOf ((a ++ (pat ++ b)).drop i) = false

theorem isPrefixOf_self_append (l b : List Char) : l.isPrefixOf (l ++ b) = true := by
  induction l with
  | nil => simp [List.isPrefixOf]
  | cons c rest ih => simp [List.isPrefixOf, ih]

theorem getSubstitutionGo_of_no_dollar (matched before after : List Char) :
    ∀ rep, dollarChar ∉ rep →
    getSubstitutionGo matched before after false rep = rep := by
  intro rep
  induction rep with
  | nil => intro h; rfl
  | cons c rest ih =>
    intro h
    simp only [List.mem_cons, not_or] at h
    have hc : ¬ c = dollarChar := fun hh => h.1 hh.symm
    simp [getSubstitutionGo, hc, ih h.2]

theorem getSubstitution_of_no_dollar (matched before after rep : List Char)
    (h : dollarChar ∉ rep) : getSubstitution matched before after rep = rep :=
  getSubstitutionGo_of_no_dollar matched before after rep h

theorem replaceFirstGo_of_not_occurs (pat rep : List Char) :
    ∀ s before, occursIn pat s = false → replaceFirstGo pat rep before s = before ++ s := by
  intro s
  induction s with
  | nil => intro before h; simp [replaceFirstGo]
  | cons c rest ih =>
    intro before h
    simp only [occursIn, Bool.or_eq_false_iff] at h
    rw [replaceFirstGo, h.1]
    simp [ih (before ++ [c]) h.2]

theorem replaceFirstL_of_not_occurs (pat rep s : List Char)
    (h : occursIn pat s = false) : replaceFirstL pat rep s = s := by
  have := replaceFirstGo_of_not_occurs pat rep s [] h
  simpa [replaceFirstL] using this

theorem replaceFirstGo_append (pat rep b : List Char) (hp : pat ≠ []) :
    ∀ a before, noEarlyMatch pat a b →
    replaceFirstGo pat rep before (a ++ (pat ++ b))
      = (before ++ a) ++ (getSubstitution pat (before ++ a) b rep ++ b) := by
  intro a
  induction a with
  | nil =>
    intro before h
    cases pat with
    | nil => exact absurd rfl hp
    | cons p pt =>
      have hpre := isPrefixOf_self_append (p :: pt) b
      have hdrop := List.drop_left (p :: pt) b
      simp only [List.cons_append] at hpre hdrop
      simp only [List.nil_append, List.append_nil, List.cons_append]
      rw [replaceFirstGo, hpre]
      simp [hdrop, List.append_assoc]
  | cons x a' ih =>
    intro before h
    have h1 := h 0 (by simp)
    simp only [List.drop_zero, List.cons_append] at h1
    have hrec : noEarlyMatch pat a' b := by
      intro i hi
      have := h (i + 1) (by simpa using Nat.succ_lt_succ hi)
      simpa using this
    simp only [List.cons_append]
    rw [replaceFirstGo, h1]
    simp [ih (before ++ [x]) hrec, List.append_assoc]

theorem replaceFirstL_append (pat rep a b : List Char) (hp : pat ≠ [])
    (h : noEarlyMatch pat a b) :
    replaceFirstL pat rep (a ++ (pat ++ b))
      = a ++ (getSubstitution pat a b rep ++ b) := by
  have := replaceFirstGo_append pat rep b hp a [] h
  simpa [replaceFirstL] using this

/-- Claim C9 counterexample: the substitution is not verbatim, because
JavaScript applies GetSubstitution to the replacement text: for a question
content holding LaTeX display math such as two dollars around E=mc^2, each
double dollar collapses to a single dollar in the final prompt. -/
theorem promptSubstitution_counterexample :
    buildFinalPrompt questionContentToken "$$E=mc^2$$".data "h".data
      = "$E=mc^2$".data
  ∧ buildFinalPrompt questionContentToken "$$E=mc^2$$".data "h".data
      ≠ "$$E=mc^2$$".data := by decide

/-- Claim C9 (amended): the placeholder tokens QUESTION_CONTENT and, for
hints, HINT_INSTRUCTIONS occurring in the chosen template are substituted
with the assembled question content and the hint-instructions text before
submission, and PREVIOUS_HINTS is accepted as a legacy synonym substituted
with the same hint-instructions text; JavaScript applies GetSubstitution to
the replacement text, so the insertion is verbatim exactly when the
inserted text contains no dollar character (and no earlier or stray token
occurrence interferes). -/
theorem promptSubstitution_spec (pre mid post qc hi : List Char)
    (h1 : noEarlyMatch questionContentToken pre (mid ++ (hintInstructionsToken ++ post)))
    (h2 : noEarlyMatch hintInstructionsToken (pre ++ (qc ++ mid)) post)
    (h3 : occursIn previousHintsToken ((pre ++ (qc ++ mid)) ++ (hi ++ post)) = false)
    (h4 : noEarlyMatch questionContentToken pre (mid ++ (previousHintsToken ++ post)))
    (h5 : occursIn hintInstructionsToken
            (pre ++ (qc ++ (mid ++ (previousHintsToken ++ post)))) = false)
    (h6 : noEarlyMatch previousHintsToken (pre ++ (qc ++ mid)) post)
    (h7 : dollarChar ∉ qc)
    (h8 : dollarChar ∉ hi) :
    buildFinalPrompt (pre ++ questionContentToken ++ mid ++ hintInstructionsToken ++ post)
        qc hi
      = pre ++ qc ++ mid ++ hi ++ post
  ∧ buildFinalPrompt (pre ++ questionContentToken ++ mid ++ previousHintsToken ++ post)
        qc hi
      = pre ++ qc ++ mid ++ hi ++ post := by
  constructor
  · unfold buildFinalPrompt
    simp only [List.append_assoc]
    rw [replaceFirstL_append questionContentToken qc pre
          (mid ++ (hintInstructionsToken ++ post)) (by decide) h1,
        getSubstitution_of_no_dollar questionContentToken pre
          (mid ++ (hintInstructionsToken ++ post)) qc h7]
    rw [show pre ++ (qc ++ (mid ++ (hintInstructionsToken ++ post)))
          = (pre ++ (qc ++ mid)) ++ (hintInstructionsToken ++ post) by
        simp [List.append_assoc]]
    rw [replaceFirstL_append hintInstructionsToken hi (pre ++ (qc ++ mid)) post
          (by decide) h2,
        getSubstitution_of_no_dollar hintInstructionsToken (pre ++ (qc ++ mid)) post
          hi h8]
    rw [replaceFirstL_of_not_occurs previousHintsToken hi _ h3]
    simp [List.append_assoc]
  · unfold buildFinalPrompt
    simp only [List.append_assoc]
    rw [replaceFirstL_append questionContentToken qc pre
          (mid ++ (previousHintsToken ++ post)) (by decide) h4,
        getSubstitution_of_no_dollar questionContentToken pre
          (mid ++ (previousHintsToken ++ post)) qc h7]
    rw [replaceFirstL_of_not_occurs hintInstructionsToken hi _ h5]
    rw [show pre ++ (qc ++ (mid ++ (previousHintsToken ++ post)))
          = (pre ++ (qc ++ mid)) ++ (previousHintsToken ++ post) by
        simp [List.append_assoc]]
    rw [replaceFirstL_append previousHintsToken hi (pre ++ (qc ++ mid)) post
          (by decide) h6,
        getSubstitution_of_no_dollar previousHintsToken (pre ++ (qc ++ mid)) post
          hi h8]
    simp [List.append_assoc]

/-- Example template prefix for the claim C9 witness. -/
def exPre : List Char := "Read this.\n".data

/-- Example template middle section for the claim C9 witness. -/
def exMid : List Char := "\n---\n".data

/-- Example template suffix for the claim C9 witness. -/
def exPost : List Char := "\nEnd.".data

/-- Example assembled question content for the claim C9 witness. -/
def exQC : List Char := "What is 2+2?".data

/-- Example hint-instructions text for the claim C9 witness. -/
def exHI : List Char := "Give one hint.".data

theorem promptSubstitution_spec_witness :
    buildFinalPrompt
        (exPre ++ questionContentToken ++ exMid ++ hintInstructionsToken ++ exPost)
        exQC exHI
      = exPre ++ exQC ++ exMid ++ exHI ++ exPost
  ∧ buildFinalPrompt
        (exPre ++ questionContentToken ++ exMid ++ previousHintsToken ++ exPost)
        exQC exHI
      = exPre ++ exQC ++ exMid ++ exHI ++ exPost :=
  promptSubstitution_spec exPre exMid exPost exQC exHI
    (by decide) (by decide) (by decide) (by decide) (by decide) (by decide)
    (by decide) (by decide)
